import Mathlib

/-!
Verification of the health-aggregation core of `ionos-cloud-watchdog`.

The Go sources are shallowly embedded as pure Lean functions:

* `internal/feed/status.go`     → `Entry`, `analyzeEntries`, `entryIsActive`
* `internal/output/checks.go`   → `checkStatusPage`, `checkIONOS`, `checkK8s`, `RunChecks`
* `internal/k8s/checker.go`     → `checkNodes`, `checkPods`, …, `checkCertificates`, `CheckHealth`
* `internal/ionos/dbaas.go`     → `makeDBaaSRequest`, `pgBlock` …, `CheckDBaaS`

Modelling conventions, uniform through the file:

* Timestamps are integers counting seconds (`24h = 86400`, `1h = 3600`).
  `time.Parse` of an entry's RFC3339 `updated` field is modelled by storing
  the parse result as `Option Int` (`none` = unparseable string).
* Every network/API call is modelled by passing its outcome in as data
  (`Except String α` for fallible list calls, dedicated outcome types for
  HTTP responses), so each Go function becomes a pure function of the
  outcomes of the calls it performs.
* Go slices are `List`s; `nil` slices and empty slices are both `[]`.
* Goroutine interleaving in `RunChecks` only permutes the final issue list;
  the sequential model concatenates the three probers' contributions in a
  fixed order.  The absence of synchronization around the concurrent
  appends in the Go code is analysed separately with the read/write
  interleaving model `raceStep` below.

The file is organised as: all definitions first, then all theorems.
-/

/-! ## String helpers -/

/-- Go `strings.Contains hay needle` on the character-list view of strings. -/
def containsSubstr (hay needle : String) : Bool :=
  hay.data.tails.any fun suffix => needle.data.isPrefixOf suffix

/-- Go `strings.ToLower` (character-wise lowering; the keywords involved are
all ASCII). -/
def strToLower (s : String) : String := ⟨s.data.map Char.toLower⟩

/-! ## Status-feed analyzer (`internal/feed/status.go`) -/

/-- Feed entry (`feed.Entry`).  `updated` holds the result of
`time.Parse(time.RFC3339, entry.Updated)`: `some t` (seconds) when the
timestamp parses, `none` when it does not.  The `Link` field is never read
by the analyzer and is omitted. -/
structure Entry where
  title : String
  updated : Option Int
  content : String
deriving Repr, DecidableEq

/-- `feed.Status` (`"OK" | "WARNING" | "CRITICAL"`). -/
inductive Status where
  | OK
  | WARNING
  | CRITICAL
deriving Repr, DecidableEq

/-- The string value carried by a `feed.Status` constant. -/
def statusStr : Status → String
  | .OK => "OK"
  | .WARNING => "WARNING"
  | .CRITICAL => "CRITICAL"

/-- `feed.StatusResult`. -/
structure StatusResult where
  status : Status
  activeIncidents : List Entry
  message : String
deriving Repr, DecidableEq

/-- `feed.activeKeywords`. -/
def activeKeywords : List String :=
  ["investigating", "identified", "monitoring", "in progress", "currently"]

/-- `feed.resolvedKeywords`. -/
def resolvedKeywords : List String :=
  ["resolved", "completed", "no customer impact"]

/-- The per-entry test of the loop body of `analyzeEntries`
(status.go lines 82–115): skip when the timestamp does not parse, skip when
`updated.Before(now - 24h)` (strict), skip on any resolved-keyword match in
the lower-cased content, otherwise keep exactly when an active keyword
matches. -/
def entryIsActive (now : Int) (e : Entry) : Bool :=
  match e.updated with
  | none => false
  | some updated =>
    if updated < now - 86400 then false
    else
      let contentLower := strToLower e.content
      if resolvedKeywords.any fun keyword => containsSubstr contentLower keyword then false
      else activeKeywords.any fun keyword => containsSubstr contentLower keyword

/-- `feed.analyzeEntries` (status.go lines 78–133).  Collects the active
incidents in entry order, then derives status and message from their
number. -/
def analyzeEntries (now : Int) (entries : List Entry) : StatusResult :=
  let activeIncidents := entries.filter (entryIsActive now)
  match activeIncidents with
  | [] => { status := .OK, activeIncidents := [], message := "No active incidents" }
  | [e] =>
      { status := .WARNING
        activeIncidents := [e]
        message := "1 active incident: " ++ e.title }
  | es =>
      { status := .CRITICAL
        activeIncidents := es
        message := toString es.length ++ " active incidents" }

/-! ## Cluster-health data model (`internal/k8s/checker.go`) -/

/-- `k8s.NodeResult`. -/
structure NodeResult where
  Total : Nat
  Ready : Nat
  NotReady : List String
  Conditions : List String
deriving Repr, DecidableEq

/-- `k8s.PodResult`. -/
structure PodResult where
  Total : Nat
  Running : Nat
  CrashLoopBackOff : List String
  ImagePullBackOff : List String
  Pending : List String
  Failed : List String
deriving Repr, DecidableEq

/-- `k8s.DeploymentResult`. -/
structure DeploymentResult where
  Total : Nat
  Available : Nat
  Unavailable : List String
deriving Repr, DecidableEq

/-- `k8s.PVCResult`. -/
structure PVCResult where
  Total : Nat
  Bound : Nat
  Pending : List String
deriving Repr, DecidableEq

/-- `k8s.ServiceResult`. -/
structure ServiceResult where
  Total : Nat
  Ready : Nat
  NoIP : List String
deriving Repr, DecidableEq

/-- `k8s.EventResult`. -/
structure EventResult where
  Warnings : List String
deriving Repr, DecidableEq

/-- `k8s.CertInfo`.  `Expiry` (a `time.Time`) is seconds since the epoch. -/
structure CertInfo where
  Host : String
  Namespace : String
  Secret : String
  ExpiresIn : Int
  Expiry : Int
deriving Repr, DecidableEq

/-- `k8s.CertResult`. -/
structure CertResult where
  Total : Nat
  Valid : Nat
  Expiring : List CertInfo
  Expired : List CertInfo
deriving Repr, DecidableEq

/-- `k8s.HealthResult`. -/
structure HealthResult where
  Nodes : NodeResult
  Pods : PodResult
  Deployments : DeploymentResult
  PVCs : PVCResult
  Services : ServiceResult
  Events : EventResult
  Certs : CertResult
deriving Repr, DecidableEq

/-! ## Kubernetes object model and the individual checks -/

/-- One entry of `node.Status.Conditions` (only the fields the checker
reads: `Type` and `Status`, both rendered as their string values). -/
structure NodeCondition where
  type : String
  status : String
deriving Repr, DecidableEq

/-- A node, reduced to the fields `checkNodes` reads. -/
structure K8sNode where
  name : String
  conditions : List NodeCondition
deriving Repr, DecidableEq

/-- The `ready` flag of the `checkNodes` loop (checker.go lines 171–174):
set iff some condition has type `Ready` with status `True`. -/
def nodeIsReady (n : K8sNode) : Bool :=
  n.conditions.any fun c => c.type == "Ready" && c.status == "True"

/-- The pressure-condition strings one node appends to `result.Conditions`
(checker.go lines 176–184), in condition order; a single condition has one
type and so contributes at most one entry. -/
def nodePressureEntries (n : K8sNode) : List String :=
  n.conditions.filterMap fun c =>
    if c.type == "MemoryPressure" && c.status == "True" then some (n.name ++ " MemoryPressure")
    else if c.type == "DiskPressure" && c.status == "True" then some (n.name ++ " DiskPressure")
    else if c.type == "PIDPressure" && c.status == "True" then some (n.name ++ " PIDPressure")
    else none

/-- `Checker.checkNodes` (checker.go lines 160–194), as a function of the
node list returned by the list call. -/
def checkNodes (nodes : List K8sNode) : NodeResult :=
  { Total := nodes.length
    Ready := (nodes.filter nodeIsReady).length
    NotReady := (nodes.filter fun n => !nodeIsReady n).map K8sNode.name
    Conditions := nodes.flatMap nodePressureEntries }

/-- One container status: `none` when `cs.State.Waiting` is nil, else the
waiting reason. -/
structure ContainerStatus where
  waitingReason : Option String
deriving Repr, DecidableEq

/-- A pod, reduced to the fields `checkPods` reads. -/
structure Pod where
  ns : String
  name : String
  phase : String
  containerStatuses : List ContainerStatus
deriving Repr, DecidableEq

/-- `fmt.Sprintf("%s/%s", pod.Namespace, pod.Name)`. -/
def podName (p : Pod) : String := p.ns ++ "/" ++ p.name

/-- Crash-loop entries a Running pod appends (one per container whose
waiting reason is `CrashLoopBackOff`). -/
def podCrashLoopEntries (p : Pod) : List String :=
  p.containerStatuses.filterMap fun cs =>
    match cs.waitingReason with
    | some "CrashLoopBackOff" => some (podName p)
    | _ => none

/-- Image-pull entries a Running pod appends (one per container whose
waiting reason is `ImagePullBackOff` or `ErrImagePull`). -/
def podImagePullEntries (p : Pod) : List String :=
  p.containerStatuses.filterMap fun cs =>
    match cs.waitingReason with
    | some "ImagePullBackOff" => some (podName p)
    | some "ErrImagePull" => some (podName p)
    | _ => none

/-- The pods counted by `result.Running` in `checkPods`: Running pods with
no flagged waiting container (`!hasIssue`), plus every pod of a phase other
than Running/Pending/Failed (the `default` branch). -/
def podCountsAsRunning (p : Pod) : Bool :=
  (p.phase == "Running" && podCrashLoopEntries p == ([] : List String)
      && podImagePullEntries p == ([] : List String)) ||
  (p.phase != "Running" && p.phase != "Pending" && p.phase != "Failed")

/-- `Checker.checkPods` (checker.go lines 196–238). -/
def checkPods (pods : List Pod) : PodResult :=
  { Total := pods.length
    Running := (pods.filter podCountsAsRunning).length
    CrashLoopBackOff := pods.flatMap fun p =>
      if p.phase == "Running" then podCrashLoopEntries p else []
    ImagePullBackOff := pods.flatMap fun p =>
      if p.phase == "Running" then podImagePullEntries p else []
    Pending := (pods.filter fun p => p.phase == "Pending").map podName
    Failed := (pods.filter fun p => p.phase == "Failed").map podName }

/-- A deployment, reduced to the fields `checkDeployments` reads.
`replicas` models `*deploy.Spec.Replicas` (the dereference is a stated
precondition of the code). -/
structure Deployment where
  ns : String
  name : String
  availableReplicas : Int
  replicas : Int
deriving Repr, DecidableEq

/-- `Checker.checkDeployments` (checker.go lines 240–261). -/
def checkDeployments (ds : List Deployment) : DeploymentResult :=
  { Total := ds.length
    Available := (ds.filter fun d => decide (d.availableReplicas ≥ d.replicas)).length
    Unavailable := (ds.filter fun d => !decide (d.availableReplicas ≥ d.replicas)).map
      fun d => d.ns ++ "/" ++ d.name }

/-- A persistent volume claim, reduced to the fields `checkPVCs` reads. -/
structure PVC where
  ns : String
  name : String
  phase : String
deriving Repr, DecidableEq

/-- `Checker.checkPVCs` (checker.go lines 263–284): `Bound` counts, Pending
is listed, any other phase is counted nowhere. -/
def checkPVCs (pvcs : List PVC) : PVCResult :=
  { Total := pvcs.length
    Bound := (pvcs.filter fun p => p.phase == "Bound").length
    Pending := (pvcs.filter fun p => p.phase == "Pending").map fun p => p.ns ++ "/" ++ p.name }

/-- A service, reduced to the fields `checkServices` reads; `ingressCount`
is `len(svc.Status.LoadBalancer.Ingress)`. -/
structure Service where
  ns : String
  name : String
  type : String
  ingressCount : Nat
deriving Repr, DecidableEq

/-- `Checker.checkServices` (checker.go lines 286–310): only LoadBalancer
services are counted. -/
def checkServices (svcs : List Service) : ServiceResult :=
  let lbs := svcs.filter fun s => s.type == "LoadBalancer"
  { Total := lbs.length
    Ready := (lbs.filter fun s => decide (s.ingressCount > 0)).length
    NoIP := (lbs.filter fun s => !decide (s.ingressCount > 0)).map fun s => s.ns ++ "/" ++ s.name }

/-- A Warning event, reduced to the fields `checkEvents` reads; `none` in a
timestamp field models the zero `time.Time`. -/
structure Event where
  involvedNamespace : String
  involvedName : String
  message : String
  lastTimestamp : Option Int
  eventTime : Option Int
deriving Repr, DecidableEq

/-- checker.go lines 325–328: `LastTimestamp`, falling back to `EventTime`
when the former is the zero time. -/
def eventEffectiveTime (e : Event) : Option Int :=
  match e.lastTimestamp with
  | some t => some t
  | none => e.eventTime

/-- `Checker.checkEvents` (checker.go lines 312–337), as a function of the
Warning-type events returned by the list call: keep events strictly newer
than `now - 1h`. -/
def checkEvents (now : Int) (events : List Event) : EventResult :=
  { Warnings :=
      (events.filter fun e =>
        match eventEffectiveTime e with
        | some t => decide (now - 3600 < t)
        | none => false).map fun e =>
        e.involvedNamespace ++ "/" ++ e.involvedName ++ ": " ++ e.message }

/-- Outcome of resolving one TLS secret: the `Get` call, the `tls.crt`
lookup, the PEM decode and the X.509 parse (checker.go lines 361–379) each
fail silently; success yields the leaf certificate's `NotAfter` time. -/
inductive SecretOutcome where
  | getError (msg : String)
  | noCertKey
  | pemFail
  | parseFail
  | cert (notAfter : Int)
deriving Repr, DecidableEq

/-- Whether the secret resolved to a parsed certificate. -/
def secretResolves : SecretOutcome → Bool
  | .cert _ => true
  | _ => false

/-- One entry of `ing.Spec.TLS`. -/
structure IngressTLS where
  hosts : List String
  secretName : String
deriving Repr, DecidableEq

/-- An ingress, reduced to the fields `checkCertificates` reads. -/
structure Ingress where
  ns : String
  tls : List IngressTLS
deriving Repr, DecidableEq

/-- Go `int(time.Until(notAfter).Hours() / 24)`: the signed day difference,
truncated toward zero (Go's `int()` float conversion), at whole-second
granularity. -/
def goDaysUntil (now notAfter : Int) : Int := Int.tdiv (notAfter - now) 86400

/-- The `(seen, result)` accumulator of the `checkCertificates` loops. -/
structure CertAcc where
  seen : List String
  result : CertResult
deriving Repr, DecidableEq

/-- The zero `CertResult`. -/
def emptyCertResult : CertResult := { Total := 0, Valid := 0, Expiring := [], Expired := [] }

/-- The loop body of `checkCertificates` (checker.go lines 349–405) for one
`(ingress-namespace, TLS block)` pair: skip empty secret names, skip
already-seen `"<ns>/<secret>"` keys, silently skip any secret that fails to
resolve (still marking it seen), and otherwise count and classify the
certificate by `daysUntilExpiry` (`< 0` expired, `< 30` expiring, else
valid), recording the TLS block's first host. -/
def certStep (now : Int) (lookup : String → String → SecretOutcome)
    (acc : CertAcc) (entry : String × IngressTLS) : CertAcc :=
  let ns := entry.1
  let tls := entry.2
  if tls.secretName == "" then acc
  else
    let key := ns ++ "/" ++ tls.secretName
    if acc.seen.contains key then acc
    else
      let seen := acc.seen ++ [key]
      match lookup ns tls.secretName with
      | .getError _ => { acc with seen := seen }
      | .noCertKey => { acc with seen := seen }
      | .pemFail => { acc with seen := seen }
      | .parseFail => { acc with seen := seen }
      | .cert notAfter =>
        let result0 := { acc.result with Total := acc.result.Total + 1 }
        let daysUntilExpiry := goDaysUntil now notAfter
        let host := tls.hosts.headD ""
        let info : CertInfo :=
          { Host := host, Namespace := ns, Secret := tls.secretName,
            ExpiresIn := daysUntilExpiry, Expiry := notAfter }
        if daysUntilExpiry < 0 then
          { seen := seen, result := { result0 with Expired := result0.Expired ++ [info] } }
        else if daysUntilExpiry < 30 then
          { seen := seen, result := { result0 with Expiring := result0.Expiring ++ [info] } }
        else
          { seen := seen, result := { result0 with Valid := result0.Valid + 1 } }

/-- The `(ingress, TLS block)` pairs visited by the two nested loops of
`checkCertificates`, in visit order. -/
def certEntries (ingresses : List Ingress) : List (String × IngressTLS) :=
  ingresses.flatMap fun ing => ing.tls.map fun tls => (ing.ns, tls)

/-- `Checker.checkCertificates` (checker.go lines 339–408), as a function
of the ingress list and of each secret's resolution outcome. -/
def checkCertificates (now : Int) (lookup : String → String → SecretOutcome)
    (ingresses : List Ingress) : CertResult :=
  ((certEntries ingresses).foldl (certStep now lookup)
    { seen := [], result := emptyCertResult }).result

/-- The outcomes of all the Kubernetes API calls one `CheckHealth` run
performs: the seven list calls, plus the resolution outcome of every
`(namespace, secret-name)` pair the certificate check may `Get`. -/
structure ClusterAPI where
  nodes : Except String (List K8sNode)
  pods : Except String (List Pod)
  deployments : Except String (List Deployment)
  pvcs : Except String (List PVC)
  services : Except String (List Service)
  events : Except String (List Event)
  ingresses : Except String (List Ingress)
  lookupSecret : String → String → SecretOutcome

/-- `Checker.CheckHealth` (checker.go lines 112–158): the sub-checks run in
order and the first failing list call aborts the whole health check with a
wrapped error. -/
def CheckHealth (now : Int) (api : ClusterAPI) : Except String HealthResult :=
  match api.nodes with
  | .error e => .error ("failed to check nodes: " ++ e)
  | .ok nodes =>
    match api.pods with
    | .error e => .error ("failed to check pods: " ++ e)
    | .ok pods =>
      match api.deployments with
      | .error e => .error ("failed to check deployments: " ++ e)
      | .ok deployments =>
        match api.pvcs with
        | .error e => .error ("failed to check pvcs: " ++ e)
        | .ok pvcs =>
          match api.services with
          | .error e => .error ("failed to check services: " ++ e)
          | .ok services =>
            match api.events with
            | .error e => .error ("failed to check events: " ++ e)
            | .ok events =>
              match api.ingresses with
              | .error e => .error ("failed to check certificates: " ++ e)
              | .ok ingresses =>
                .ok { Nodes := checkNodes nodes
                      Pods := checkPods pods
                      Deployments := checkDeployments deployments
                      PVCs := checkPVCs pvcs
                      Services := checkServices services
                      Events := checkEvents now events
                      Certs := checkCertificates now api.lookupSecret ingresses }

/-! ## Managed databases (`internal/ionos/dbaas.go`) -/

/-- `ionos.PostgreSQLCluster` (properties and metadata flattened). -/
structure PostgreSQLCluster where
  id : String
  displayName : String
  postgresVersion : String
  location : String
  instances : Nat
  state : String
deriving Repr, DecidableEq

/-- `ionos.MongoDBCluster`. -/
structure MongoDBCluster where
  id : String
  displayName : String
  mongoDBVersion : String
  location : String
  instances : Nat
  edition : String
  state : String
deriving Repr, DecidableEq

/-- `ionos.MariaDBCluster`. -/
structure MariaDBCluster where
  id : String
  displayName : String
  mariadbVersion : String
  location : String
  instances : Nat
  state : String
deriving Repr, DecidableEq

/-- `ionos.InMemoryDBInstance`. -/
structure InMemoryDBInstance where
  id : String
  displayName : String
  version : String
  location : String
  replicas : Nat
  state : String
deriving Repr, DecidableEq

/-- `ionos.DBaaSStatus`. -/
structure DBaaSStatus where
  PostgreSQL : List PostgreSQLCluster
  MongoDB : List MongoDBCluster
  MariaDB : List MariaDBCluster
  InMemoryDB : List InMemoryDBInstance
  Issues : List String
deriving Repr, DecidableEq

/-- Outcome of one DBaaS HTTP request: transport failure, or a status code
together with the JSON-decode outcome of the body (only consulted when the
code reaches the decode, i.e. on status 200). -/
inductive DBaaSOutcome (α : Type) where
  | netError (msg : String)
  | httpResponse (status : Nat) (body : Except String α)

/-- `Client.makeDBaaSRequest` (dbaas.go lines 93–120): transport errors
propagate; 404 returns success leaving `result` at its zero value `zero`;
any other non-200 status is `"API returned status <n>"`; on 200 the decode
outcome is returned. -/
def makeDBaaSRequest {α : Type} (zero : α) (o : DBaaSOutcome α) : Except String α :=
  match o with
  | .netError msg => .error msg
  | .httpResponse status body =>
    if status == 404 then .ok zero
    else if status != 200 then .error ("API returned status " ++ toString status)
    else body

/-- `Client.ListPostgreSQLClusters` (the response struct holds only the
`items` list, whose zero value is the empty list). -/
def ListPostgreSQLClusters (o : DBaaSOutcome (List PostgreSQLCluster)) :
    Except String (List PostgreSQLCluster) :=
  makeDBaaSRequest [] o

/-- `Client.ListMongoDBClusters`. -/
def ListMongoDBClusters (o : DBaaSOutcome (List MongoDBCluster)) :
    Except String (List MongoDBCluster) :=
  makeDBaaSRequest [] o

/-- `Client.ListMariaDBClusters`. -/
def ListMariaDBClusters (o : DBaaSOutcome (List MariaDBCluster)) :
    Except String (List MariaDBCluster) :=
  makeDBaaSRequest [] o

/-- `Client.ListInMemoryDBInstances`. -/
def ListInMemoryDBInstances (o : DBaaSOutcome (List InMemoryDBInstance)) :
    Except String (List InMemoryDBInstance) :=
  makeDBaaSRequest [] o

/-- The PostgreSQL paragraph of `CheckDBaaS` (dbaas.go lines 161–172):
a list error becomes one `"Failed to get …"` issue; otherwise the clusters
are stored and each cluster whose state is neither `AVAILABLE` nor `ACTIVE`
contributes one issue. -/
def pgBlock (o : DBaaSOutcome (List PostgreSQLCluster)) :
    List PostgreSQLCluster × List String :=
  match ListPostgreSQLClusters o with
  | .error e => ([], ["Failed to get PostgreSQL clusters: " ++ e])
  | .ok clusters =>
    (clusters,
     clusters.filterMap fun cluster =>
       if cluster.state != "AVAILABLE" && cluster.state != "ACTIVE" then
         some ("PostgreSQL cluster " ++ cluster.displayName ++ " state: " ++ cluster.state)
       else none)

/-- The MongoDB paragraph of `CheckDBaaS` (dbaas.go lines 174–185). -/
def mongoBlock (o : DBaaSOutcome (List MongoDBCluster)) :
    List MongoDBCluster × List String :=
  match ListMongoDBClusters o with
  | .error e => ([], ["Failed to get MongoDB clusters: " ++ e])
  | .ok clusters =>
    (clusters,
     clusters.filterMap fun cluster =>
       if cluster.state != "AVAILABLE" && cluster.state != "ACTIVE" then
         some ("MongoDB cluster " ++ cluster.displayName ++ " state: " ++ cluster.state)
       else none)

/-- The MariaDB paragraph of `CheckDBaaS` (dbaas.go lines 187–198). -/
def mariaBlock (o : DBaaSOutcome (List MariaDBCluster)) :
    List MariaDBCluster × List String :=
  match ListMariaDBClusters o with
  | .error e => ([], ["Failed to get MariaDB clusters: " ++ e])
  | .ok clusters =>
    (clusters,
     clusters.filterMap fun cluster =>
       if cluster.state != "AVAILABLE" && cluster.state != "ACTIVE" then
         some ("MariaDB cluster " ++ cluster.displayName ++ " state: " ++ cluster.state)
       else none)

/-- The In-Memory DB paragraph of `CheckDBaaS` (dbaas.go lines 200–211). -/
def inMemoryBlock (o : DBaaSOutcome (List InMemoryDBInstance)) :
    List InMemoryDBInstance × List String :=
  match ListInMemoryDBInstances o with
  | .error e => ([], ["Failed to get In-Memory DB instances: " ++ e])
  | .ok instances =>
    (instances,
     instances.filterMap fun inst =>
       if inst.state != "AVAILABLE" && inst.state != "ACTIVE" then
         some ("In-Memory DB instance " ++ inst.displayName ++ " state: " ++ inst.state)
       else none)

/-- `Client.CheckDBaaS` (dbaas.go lines 158–214): the four engine
paragraphs run in order, each over its own request outcome; on a paragraph
error the engine's list stays at its zero value (nil = `[]`). -/
def CheckDBaaS (po : DBaaSOutcome (List PostgreSQLCluster))
    (mo : DBaaSOutcome (List MongoDBCluster))
    (ro : DBaaSOutcome (List MariaDBCluster))
    (imo : DBaaSOutcome (List InMemoryDBInstance)) : DBaaSStatus :=
  { PostgreSQL := (pgBlock po).1
    MongoDB := (mongoBlock mo).1
    MariaDB := (mariaBlock ro).1
    InMemoryDB := (inMemoryBlock imo).1
    Issues := (pgBlock po).2 ++ (mongoBlock mo).2 ++ (mariaBlock ro).2 ++ (inMemoryBlock imo).2 }

/-! ## Aggregation engine (`internal/output/checks.go`) -/

/-- `ionos.CheckResult`. -/
structure CheckResult where
  OK : Bool
  Message : String
deriving Repr, DecidableEq

/-- `ionos.DatacenterStatus`, reduced to the two fields `checkIONOS` reads
(`status.Datacenter.Properties.Name` and `status.Issues`); the embedded
entity and its server/volume children are never consulted by the
aggregation engine. -/
structure DatacenterStatus where
  Name : String
  Issues : List String
deriving Repr, DecidableEq

/-- `ionos.K8sClusterStatus`, reduced to the two fields `checkIONOS` reads. -/
structure K8sClusterStatus where
  Name : String
  Issues : List String
deriving Repr, DecidableEq

/-- Outcome of `feed.CheckStatus()`: fetch/read/parse error, or a result. -/
inductive FeedOutcome where
  | fetchError (msg : String)
  | ok (result : StatusResult)
deriving Repr, DecidableEq

/-- The responses the IONOS client's four calls produce during
`checkIONOS` (connectivity and authentication cannot fail with an error;
the two walks can). -/
structure IonosResponses where
  connectivity : CheckResult
  auth : CheckResult
  datacenters : Except String (List DatacenterStatus)
  clusters : Except String (List K8sClusterStatus)

/-- Outcome of `newIONOSClient()` followed by the client's calls. -/
inductive IonosOutcome where
  | clientError (msg : String)
  | client (responses : IonosResponses)

/-- Outcome of `newK8sChecker` followed by `CheckHealth`. -/
inductive K8sOutcome where
  | checkerError (msg : String)
  | healthError (msg : String)
  | health (h : HealthResult)
deriving Repr, DecidableEq

/-- `output.checkStatusPage` (checks.go): on fetch error append one
`"Status page: <error>"` issue; otherwise store the result and, when its
status is not OK, append one issue per active incident title, or one
generic `"Status page: <status>"` issue when the incident list is empty. -/
def checkStatusPage (fo : FeedOutcome) : Option StatusResult × List String :=
  match fo with
  | .fetchError msg => (none, ["Status page: " ++ msg])
  | .ok statusResult =>
    (some statusResult,
      if statusResult.status ≠ Status.OK then
        if statusResult.activeIncidents.length > 0 then
          statusResult.activeIncidents.map fun incident => "Status page: " ++ incident.title
        else
          ["Status page: " ++ statusStr statusResult.status]
      else [])

/-- What `output.checkIONOS` writes into the report plus the issues it
appends. -/
structure IonosContribution where
  APICheck : Option CheckResult
  AuthCheck : Option CheckResult
  Datacenters : Option (List DatacenterStatus)
  Clusters : Option (List K8sClusterStatus)
  issues : List String

/-- `output.checkIONOS` (checks.go): a client-construction error returns
immediately — no report fields, no issues.  Otherwise: one fixed issue per
failed connectivity/auth check; a walk error appends one issue; a
successful walk prefixes every per-entity issue with the entity name. -/
def checkIONOS (co : IonosOutcome) : IonosContribution :=
  match co with
  | .clientError _ => ⟨none, none, none, none, []⟩
  | .client r =>
    let connIssues := if r.connectivity.OK then [] else ["IONOS API unreachable"]
    let authIssues := if r.auth.OK then [] else ["IONOS authentication failed"]
    let dcPart :=
      match r.datacenters with
      | .error e => (none, ["Datacenters: " ++ e])
      | .ok statuses =>
        (some statuses,
         statuses.flatMap fun status =>
           status.Issues.map fun issue => "DC " ++ status.Name ++ ": " ++ issue)
    let clusterPart :=
      match r.clusters with
      | .error e => (none, ["K8s clusters: " ++ e])
      | .ok statuses =>
        (some statuses,
         statuses.flatMap fun status =>
           status.Issues.map fun issue => "Cluster " ++ status.Name ++ ": " ++ issue)
    ⟨some r.connectivity, some r.auth, dcPart.1, clusterPart.1,
      connIssues ++ authIssues ++ dcPart.2 ++ clusterPart.2⟩

/-- `output.checkK8s` (checks.go): a checker-construction error returns
immediately with no issue; a health-check error appends one
`"K8s health: <error>"` issue; on success the health result is stored and
each category with a positive aggregate count appends exactly one
`"<n> … issues"` line. -/
def checkK8s (ko : K8sOutcome) : Option HealthResult × List String :=
  match ko with
  | .checkerError _ => (none, [])
  | .healthError e => (none, ["K8s health: " ++ e])
  | .health health =>
    let nodeIssues := health.Nodes.NotReady.length + health.Nodes.Conditions.length
    let podIssues := health.Pods.CrashLoopBackOff.length + health.Pods.ImagePullBackOff.length +
      health.Pods.Pending.length + health.Pods.Failed.length
    (some health,
      (if nodeIssues > 0 then [toString nodeIssues ++ " node issues"] else []) ++
      (if podIssues > 0 then [toString podIssues ++ " pod issues"] else []) ++
      (if health.Deployments.Unavailable.length > 0 then
        [toString health.Deployments.Unavailable.length ++ " deployment issues"] else []) ++
      (if health.PVCs.Pending.length > 0 then
        [toString health.PVCs.Pending.length ++ " PVC issues"] else []) ++
      (if health.Services.NoIP.length > 0 then
        [toString health.Services.NoIP.length ++ " LoadBalancer issues"] else []) ++
      (if health.Certs.Expired.length > 0 then
        [toString health.Certs.Expired.length ++ " expired certificates"] else []) ++
      (if health.Certs.Expiring.length > 0 then
        [toString health.Certs.Expiring.length ++ " certificates expiring soon"] else []))

/-- `output.Report` (text.go lines 11–21).  `DBaaS` is omitted:
`RunChecks` never writes it. -/
structure Report where
  Status : String
  StatusPage : Option StatusResult
  APICheck : Option CheckResult
  AuthCheck : Option CheckResult
  Datacenters : Option (List DatacenterStatus)
  Clusters : Option (List K8sClusterStatus)
  Health : Option HealthResult
  Issues : List String

/-- `output.RunChecks` (checks.go): the three probers run (concurrently in
Go; sequentially here, which fixes one interleaving of the issue list),
their contributions are joined, and the final status is derived by the two
sequential threshold assignments of the source. -/
def RunChecks (fo : FeedOutcome) (co : IonosOutcome) (ko : K8sOutcome) : Report :=
  let feedPart := checkStatusPage fo
  let ionosPart := checkIONOS co
  let k8sPart := checkK8s ko
  let issues := feedPart.2 ++ ionosPart.issues ++ k8sPart.2
  let status0 := "OK"
  let status1 := if issues.length > 0 then "WARNING" else status0
  let status2 := if issues.length > 3 then "CRITICAL" else status1
  { Status := status2
    StatusPage := feedPart.1
    APICheck := ionosPart.APICheck
    AuthCheck := ionosPart.AuthCheck
    Datacenters := ionosPart.Datacenters
    Clusters := ionosPart.Clusters
    Health := k8sPart.1
    Issues := issues }

/-! ## Spec-side definitions (formalising the claims' wording, to be
compared with the code-side definitions above) -/

/-- Spec wording of the severity rule: 0 issues → OK; 1–3 → WARNING;
4 or more → CRITICAL. -/
def claimSeverity (n : Nat) : String :=
  if n = 0 then "OK" else if n ≤ 3 then "WARNING" else "CRITICAL"

/-- Spec wording of the per-category aggregate counts contributed by the
cluster-health prober, with each category's issue label. -/
def specCategoryCounts (health : HealthResult) : List (Nat × String) :=
  [ (health.Nodes.NotReady.length + health.Nodes.Conditions.length, " node issues"),
    (health.Pods.CrashLoopBackOff.length + health.Pods.ImagePullBackOff.length +
      health.Pods.Pending.length + health.Pods.Failed.length, " pod issues"),
    (health.Deployments.Unavailable.length, " deployment issues"),
    (health.PVCs.Pending.length, " PVC issues"),
    (health.Services.NoIP.length, " LoadBalancer issues"),
    (health.Certs.Expired.length, " expired certificates"),
    (health.Certs.Expiring.length, " certificates expiring soon") ]

/-- Spec wording of the cluster-health issue synthesis: one issue per
category, present exactly when its aggregate count is positive. -/
def specK8sIssues (health : HealthResult) : List String :=
  (specCategoryCounts health).flatMap fun c =>
    if 0 < c.1 then [toString c.1 ++ c.2] else []

/-! ## Interleaving model of the unsynchronized issue appends -/

/-- The shared `issues` slice of `RunChecks` together with the private
snapshots two writer goroutines hold mid-append.  Go's
`*issues = append(*issues, msg)` is not atomic: it reads the current slice,
then writes the extended slice back. -/
structure RaceState where
  issues : List String
  snap1 : Option (List String)
  snap2 : Option (List String)
deriving Repr, DecidableEq

/-- One scheduler step of two goroutines each performing one append:
`read i` loads the current slice into goroutine `i`'s snapshot, `write i`
stores the snapshot extended by the goroutine's message. -/
inductive RaceAction where
  | read1
  | write1 (msg : String)
  | read2
  | write2 (msg : String)
deriving Repr, DecidableEq

/-- Transition function of the interleaving model. -/
def raceStep (s : RaceState) (a : RaceAction) : RaceState :=
  match a with
  | .read1 => { s with snap1 := some s.issues }
  | .write1 msg =>
    match s.snap1 with
    | some snap => { s with issues := snap ++ [msg], snap1 := none }
    | none => s
  | .read2 => { s with snap2 := some s.issues }
  | .write2 msg =>
    match s.snap2 with
    | some snap => { s with issues := snap ++ [msg], snap2 := none }
    | none => s

/-- Run a schedule from the empty issue list. -/
def raceRun (actions : List RaceAction) : RaceState :=
  actions.foldl raceStep { issues := [], snap1 := none, snap2 := none }

/-- A Running pod with one crash-looping container and one
image-pull-failing container (used to show the pod healthy-count identity
is not guaranteed). -/
def doubleWaitingPod : Pod :=
  { ns := "ns"
    name := "pod"
    phase := "Running"
    containerStatuses := [{ waitingReason := some "CrashLoopBackOff" },
                          { waitingReason := some "ImagePullBackOff" }] }

/-! # Theorems -/

theorem analyzeEntries_activeIncidents (now : Int) (entries : List Entry) :
    (analyzeEntries now entries).activeIncidents = entries.filter (entryIsActive now) := by
  unfold analyzeEntries
  rcases entries.filter (entryIsActive now) with _ | ⟨e, _ | ⟨f, rest⟩⟩ <;> rfl

theorem entryIsActive_iff (now : Int) (e : Entry) :
    entryIsActive now e = true ↔
      (∃ t, e.updated = some t ∧ now - 86400 ≤ t) ∧
      (∀ k ∈ resolvedKeywords, containsSubstr (strToLower e.content) k = false) ∧
      (∃ k ∈ activeKeywords, containsSubstr (strToLower e.content) k = true) := by
  unfold entryIsActive
  cases h : e.updated with
  | none => simp
  | some t =>
    simp only [Option.some.injEq]
    by_cases hlt : t < now - 86400
    · rw [if_pos hlt]
      constructor
      · intro hfalse; cases hfalse
      · rintro ⟨⟨t', rfl, hle⟩, -, -⟩
        omega
    · rw [if_neg hlt]
      cases hres :
          (resolvedKeywords.any fun keyword => containsSubstr (strToLower e.content) keyword) with
      | true =>
        rw [if_pos rfl]
        constructor
        · intro hfalse; cases hfalse
        · rintro ⟨-, hall, -⟩
          obtain ⟨k, hk, hck⟩ := List.any_eq_true.mp hres
          rw [hall k hk] at hck
          cases hck
      | false =>
        rw [if_neg (by simp)]
        have hall : ∀ k' ∈ resolvedKeywords, containsSubstr (strToLower e.content) k' = false := by
          intro k' hk'
          cases hc : containsSubstr (strToLower e.content) k' with
          | false => rfl
          | true => exact absurd (List.any_eq_true.mpr ⟨k', hk', hc⟩) (by simp [hres])
        constructor
        · intro hk
          obtain ⟨k, hkm, hck⟩ := List.any_eq_true.mp hk
          exact ⟨⟨t, rfl, by omega⟩, hall, ⟨k, hkm, hck⟩⟩
        · rintro ⟨-, -, ⟨k, hkm, hck⟩⟩
          exact List.any_eq_true.mpr ⟨k, hkm, hck⟩

/-- **C4 (amended)** An entry is counted as an active incident iff its
timestamp parses, its parsed update time is *at or after* `now - 24h`
(`analyzeEntries` drops an entry only when `updated.Before(cutoff)`, a
strict comparison, so an entry updated exactly at the cutoff is retained),
its lower-cased content matches no resolved keyword (a resolved match
excludes the entry even when an active keyword also matches), and its
lower-cased content matches at least one active keyword. -/
theorem active_incident_membership (now : Int) (entries : List Entry) (e : Entry) :
    e ∈ (analyzeEntries now entries).activeIncidents ↔
      e ∈ entries ∧
      (∃ t, e.updated = some t ∧ now - 86400 ≤ t) ∧
      (∀ k ∈ resolvedKeywords, containsSubstr (strToLower e.content) k = false) ∧
      (∃ k ∈ activeKeywords, containsSubstr (strToLower e.content) k = true) := by
  rw [analyzeEntries_activeIncidents, List.mem_filter, entryIsActive_iff]

/-- **C4 (counterexample)** The claim states that entries updated at or
before `now - 24h` are dropped.  This entry's update time is exactly
`now - 24h` (`now = 86400`, `updated = 0`), yet `analyzeEntries` counts it
as an active incident, because the code's cutoff test
`updated.Before(cutoff)` is strict. -/
theorem cutoff_boundary_entry_is_counted :
    (analyzeEntries 86400 [⟨"T", some 0, "currently investigating"⟩]).activeIncidents =
      [⟨"T", some 0, "currently investigating"⟩] := by decide

/-- **C5** The `StatusResult` returned by the analyzer maps the active
incident count to status and message: zero incidents → `OK` with message
`"No active incidents"`; exactly one → `WARNING` with message
`"1 active incident: <title>"` using that incident's title; two or more →
`CRITICAL` with message `"<n> active incidents"` carrying only the count
and no titles. -/
theorem statusResult_from_incident_count (now : Int) (entries : List Entry) :
    ((analyzeEntries now entries).status, (analyzeEntries now entries).message) =
      match (analyzeEntries now entries).activeIncidents with
      | [] => (Status.OK, "No active incidents")
      | [e] => (Status.WARNING, "1 active incident: " ++ e.title)
      | es => (Status.CRITICAL, toString es.length ++ " active incidents") := by
  unfold analyzeEntries
  rcases entries.filter (entryIsActive now) with _ | ⟨e, _ | ⟨f, rest⟩⟩ <;> rfl

/-- **C1** For every final issue list produced by an aggregation cycle,
the derived severity is a pure function of the issue count alone:
0 issues → `"OK"`, 1–3 issues → `"WARNING"`, 4 or more → `"CRITICAL"`,
with the boundary exactly between 3 and 4. -/
theorem runChecks_severity_from_issue_count
    (fo : FeedOutcome) (co : IonosOutcome) (ko : K8sOutcome) :
    (RunChecks fo co ko).Status = claimSeverity (RunChecks fo co ko).Issues.length := by
  have hI : (RunChecks fo co ko).Issues =
      (checkStatusPage fo).2 ++ (checkIONOS co).issues ++ (checkK8s ko).2 := rfl
  have hS : (RunChecks fo co ko).Status =
      (if ((checkStatusPage fo).2 ++ (checkIONOS co).issues ++ (checkK8s ko).2).length > 3
       then "CRITICAL"
       else if ((checkStatusPage fo).2 ++ (checkIONOS co).issues ++ (checkK8s ko).2).length > 0
       then "WARNING" else "OK") := rfl
  rw [hI, hS]
  unfold claimSeverity
  split_ifs <;> first | rfl | (exfalso; omega)

/-- **C2 (counterexample)** The claim states every prober failure is
converted into exactly one issue string.  In this cycle the cloud prober
fails (client construction error) while the other two probers succeed with
clean results — and the final issue list is empty: `checkIONOS` returns
without appending any issue when `newIONOSClient` fails. -/
theorem cloud_client_failure_yields_no_issue :
    (RunChecks
      (.ok { status := .OK, activeIncidents := [], message := "No active incidents" })
      (.clientError
        "IONOS credentials not found: set IONOS_TOKEN or IONOS_USERNAME/IONOS_PASSWORD")
      (.health
        { Nodes := { Total := 0, Ready := 0, NotReady := [], Conditions := [] }
          Pods := { Total := 0, Running := 0, CrashLoopBackOff := [], ImagePullBackOff := [],
                    Pending := [], Failed := [] }
          Deployments := { Total := 0, Available := 0, Unavailable := [] }
          PVCs := { Total := 0, Bound := 0, Pending := [] }
          Services := { Total := 0, Ready := 0, NoIP := [] }
          Events := { Warnings := [] }
          Certs := emptyCertResult })).Issues = [] := rfl

/-- **C2 (amended)** A feed fetch/parse error and a cluster health-check
error are each caught locally and converted into exactly one issue string,
and an error from the datacenter walk or the managed-cluster walk also
yields exactly one issue (`"Datacenters: <error>"` /
`"K8s clusters: <error>"`) without suppressing the other walk's normal
contribution; but a failure to construct the cloud client or the cluster
checker is swallowed with zero issues.  In every case a prober's failure
never prevents the other two probers from contributing: each prober's
report section and issue sub-list is a function of that prober's own
outcome alone, and `RunChecks` always assembles all three contributions. -/
theorem prober_failure_isolation
    (fo : FeedOutcome) (co : IonosOutcome) (ko : K8sOutcome) (msg : String)
    (conn auth : CheckResult) (msgD msgC : String) (csl : List K8sClusterStatus) :
    (checkStatusPage (.fetchError msg)).2 = ["Status page: " ++ msg] ∧
    (checkK8s (.healthError msg)).2 = ["K8s health: " ++ msg] ∧
    (checkIONOS (.clientError msg)).issues = [] ∧
    (checkK8s (.checkerError msg)).2 = [] ∧
    (checkIONOS (.client ⟨conn, auth, .error msgD, .error msgC⟩)).issues =
      (if conn.OK then [] else ["IONOS API unreachable"]) ++
      (if auth.OK then [] else ["IONOS authentication failed"]) ++
      ["Datacenters: " ++ msgD] ++ ["K8s clusters: " ++ msgC] ∧
    (checkIONOS (.client ⟨conn, auth, .error msgD, .ok csl⟩)).issues =
      (if conn.OK then [] else ["IONOS API unreachable"]) ++
      (if auth.OK then [] else ["IONOS authentication failed"]) ++
      ["Datacenters: " ++ msgD] ++
      (csl.flatMap fun status =>
        status.Issues.map fun issue => "Cluster " ++ status.Name ++ ": " ++ issue) ∧
    (RunChecks fo co ko).Issues =
      (checkStatusPage fo).2 ++ (checkIONOS co).issues ++ (checkK8s ko).2 ∧
    (RunChecks fo co ko).StatusPage = (checkStatusPage fo).1 ∧
    (RunChecks fo co ko).Health = (checkK8s ko).1 ∧
    (RunChecks fo co ko).APICheck = (checkIONOS co).APICheck ∧
    (RunChecks fo co ko).Datacenters = (checkIONOS co).Datacenters ∧
    (RunChecks fo co ko).Clusters = (checkIONOS co).Clusters :=
  ⟨rfl, rfl, rfl, rfl, rfl, rfl, rfl, rfl, rfl, rfl, rfl, rfl⟩

/-- **C3** The cluster-health prober contributes at most one top-level
issue per category, present exactly when that category's aggregate count is
positive, with node issues = `|NotReady| + |Conditions|`, pod issues =
`|CrashLoopBackOff| + |ImagePullBackOff| + |Pending| + |Failed|`, and the
deployment/PVC/LoadBalancer/certificate categories each sized by their
problem list (`specK8sIssues` spells out exactly this wording).  Moreover a
node that is not Ready and has `MemoryPressure=True` lands in both the
not-ready list and the pressure-conditions list of `checkNodes`, so it
contributes 2 to the node-issues aggregate. -/
theorem k8s_category_issue_aggregation (health : HealthResult) :
    (checkK8s (.health health)).2 = specK8sIssues health ∧
    (checkNodes [{ name := "node-1",
                   conditions := [{ type := "Ready", status := "False" },
                                  { type := "MemoryPressure", status := "True" }] }]).NotReady.length +
      (checkNodes [{ name := "node-1",
                     conditions := [{ type := "Ready", status := "False" },
                                    { type := "MemoryPressure", status := "True" }] }]).Conditions.length
      = 2 := by
  constructor
  · simp only [checkK8s, specK8sIssues, specCategoryCounts, List.flatMap_cons,
      List.flatMap_nil, List.append_nil, List.append_assoc]
  · rfl

/-- **C6 (code-bug demonstration)** `RunChecks` guards the three
goroutines' appends to the shared `issues` slice with nothing but a
`sync.WaitGroup`.  Modelling Go's non-atomic `*issues = append(*issues, m)`
as a read step followed by a write step: a serialized schedule of the two
appends that a failing feed prober and a failing cluster prober perform
yields both issue strings, while the unsynchronized interleaving
read–read–write–write loses one of them. -/
theorem unsynchronized_append_loses_issue :
    (checkStatusPage (.fetchError "boom")).2 = ["Status page: boom"] ∧
    (checkK8s (.healthError "boom")).2 = ["K8s health: boom"] ∧
    (raceRun [.read1, .write1 "Status page: boom", .read2, .write2 "K8s health: boom"]).issues =
      ["Status page: boom", "K8s health: boom"] ∧
    (raceRun [.read1, .read2, .write1 "Status page: boom", .write2 "K8s health: boom"]).issues =
      ["K8s health: boom"] :=
  ⟨rfl, rfl, rfl, rfl⟩

/-- **C7** In the managed-databases walk, each engine's list and issue
block is a function of that engine's own request outcome alone (so a
failure of one engine never prevents the remaining engines from being
probed); an HTTP 404 yields an empty entity list and zero issues for that
engine; any other non-2xx status yields exactly one
`"Failed to get …: API returned status <n>"` issue for that engine only. -/
theorem dbaas_engine_isolation
    (po : DBaaSOutcome (List PostgreSQLCluster)) (mo : DBaaSOutcome (List MongoDBCluster))
    (ro : DBaaSOutcome (List MariaDBCluster)) (imo : DBaaSOutcome (List InMemoryDBInstance))
    (bp : Except String (List PostgreSQLCluster)) (bm : Except String (List MongoDBCluster))
    (br : Except String (List MariaDBCluster)) (bi : Except String (List InMemoryDBInstance))
    (s : Nat) (hs : s < 200 ∨ 300 ≤ s) (h404 : s ≠ 404) :
    ((CheckDBaaS po mo ro imo).PostgreSQL = (pgBlock po).1 ∧
     (CheckDBaaS po mo ro imo).MongoDB = (mongoBlock mo).1 ∧
     (CheckDBaaS po mo ro imo).MariaDB = (mariaBlock ro).1 ∧
     (CheckDBaaS po mo ro imo).InMemoryDB = (inMemoryBlock imo).1 ∧
     (CheckDBaaS po mo ro imo).Issues =
       (pgBlock po).2 ++ (mongoBlock mo).2 ++ (mariaBlock ro).2 ++ (inMemoryBlock imo).2) ∧
    (pgBlock (.httpResponse 404 bp) = ([], []) ∧
     mongoBlock (.httpResponse 404 bm) = ([], []) ∧
     mariaBlock (.httpResponse 404 br) = ([], []) ∧
     inMemoryBlock (.httpResponse 404 bi) = ([], [])) ∧
    ((pgBlock (.httpResponse s bp)).2 =
        ["Failed to get PostgreSQL clusters: " ++ ("API returned status " ++ toString s)] ∧
     (mongoBlock (.httpResponse s bm)).2 =
        ["Failed to get MongoDB clusters: " ++ ("API returned status " ++ toString s)] ∧
     (mariaBlock (.httpResponse s br)).2 =
        ["Failed to get MariaDB clusters: " ++ ("API returned status " ++ toString s)] ∧
     (inMemoryBlock (.httpResponse s bi)).2 =
        ["Failed to get In-Memory DB instances: " ++ ("API returned status " ++ toString s)]) := by
  have hne404 : (s == 404) = false := beq_eq_false_iff_ne.mpr h404
  have hne200 : (s == 200) = false := beq_eq_false_iff_ne.mpr (by omega)
  refine ⟨⟨rfl, rfl, rfl, rfl, rfl⟩, ⟨rfl, rfl, rfl, rfl⟩, ?_, ?_, ?_, ?_⟩ <;>
    simp [pgBlock, mongoBlock, mariaBlock, inMemoryBlock, ListPostgreSQLClusters,
      ListMongoDBClusters, ListMariaDBClusters, ListInMemoryDBInstances,
      makeDBaaSRequest, bne, hne404, hne200]

/-- Witness for `dbaas_engine_isolation` at status 500: the PostgreSQL
engine records exactly one issue for the failed listing. -/
theorem dbaas_engine_isolation_witness :
    (pgBlock (.httpResponse 500 (.ok []))).2 =
      ["Failed to get PostgreSQL clusters: API returned status 500"] := by
  have h := dbaas_engine_isolation
    (.httpResponse 404 (.ok [])) (.httpResponse 404 (.ok []))
    (.httpResponse 404 (.ok [])) (.httpResponse 404 (.ok []))
    (.ok []) (.ok []) (.ok []) (.ok [])
    500 (by omega) (by decide)
  exact h.2.2.1

theorem certStep_classified (now : Int) (lookup : String → String → SecretOutcome)
    (entry : String × IngressTLS) (acc : CertAcc)
    (h : acc.result.Valid + acc.result.Expiring.length + acc.result.Expired.length
          = acc.result.Total) :
    (certStep now lookup acc entry).result.Valid +
      (certStep now lookup acc entry).result.Expiring.length +
      (certStep now lookup acc entry).result.Expired.length
      = (certStep now lookup acc entry).result.Total := by
  unfold certStep
  dsimp only
  split
  · exact h
  · split
    · exact h
    · split
      · exact h
      · exact h
      · exact h
      · exact h
      · split_ifs <;> simp only [List.length_append, List.length_cons, List.length_nil] <;> omega

theorem checkCertificates_classified (now : Int) (lookup : String → String → SecretOutcome)
    (ingresses : List Ingress) :
    (checkCertificates now lookup ingresses).Valid +
      (checkCertificates now lookup ingresses).Expiring.length +
      (checkCertificates now lookup ingresses).Expired.length
      = (checkCertificates now lookup ingresses).Total := by
  unfold checkCertificates
  generalize certEntries ingresses = entries
  suffices h : ∀ acc : CertAcc,
      acc.result.Valid + acc.result.Expiring.length + acc.result.Expired.length
        = acc.result.Total →
      (entries.foldl (certStep now lookup) acc).result.Valid +
        (entries.foldl (certStep now lookup) acc).result.Expiring.length +
        (entries.foldl (certStep now lookup) acc).result.Expired.length
        = (entries.foldl (certStep now lookup) acc).result.Total by
    exact h _ (by simp [emptyCertResult])
  induction entries with
  | nil => intro acc hacc; simpa using hacc
  | cons entry rest ih =>
    intro acc hacc
    simp only [List.foldl_cons]
    exact ih _ (certStep_classified now lookup entry acc hacc)

theorem certStep_result_of_fail (now : Int) (lookup : String → String → SecretOutcome)
    (hfail : ∀ a b, secretResolves (lookup a b) = false)
    (acc : CertAcc) (entry : String × IngressTLS) :
    (certStep now lookup acc entry).result = acc.result := by
  unfold certStep
  dsimp only
  split
  · rfl
  · split
    · rfl
    · split
      · rfl
      · rfl
      · rfl
      · rfl
      · next notAfter heq =>
          exact absurd (hfail entry.1 entry.2.secretName) (by simp [secretResolves, heq])

theorem checkCertificates_all_fail (now : Int) (lookup : String → String → SecretOutcome)
    (ingresses : List Ingress) (hfail : ∀ a b, secretResolves (lookup a b) = false) :
    checkCertificates now lookup ingresses = emptyCertResult := by
  unfold checkCertificates
  generalize certEntries ingresses = entries
  suffices h : ∀ acc : CertAcc, (entries.foldl (certStep now lookup) acc).result = acc.result by
    rw [h]
  induction entries with
  | nil => intro acc; rfl
  | cons entry rest ih =>
    intro acc
    simp only [List.foldl_cons]
    rw [ih _, certStep_result_of_fail now lookup hfail acc entry]

/-- **C8** A failure of any of the seven list-API calls (nodes, pods,
deployments, PVCs, services, events, ingresses) makes `CheckHealth` return
the wrapped error and no `HealthResult`; inside the certificate check, a
failure to resolve, decode, or parse an individual secret is silently
skipped — every counted certificate is classified into exactly one bucket
(`Valid + |Expiring| + |Expired| = Total`), a failing secret next to a good
one is neither counted nor reported, and even when every secret fails the
health check still succeeds with an empty certificate result. -/
theorem checkHealth_fatal_lists_nonfatal_secrets
    (now : Int) (e : String)
    (l1 : List K8sNode) (l2 : List Pod) (l3 : List Deployment) (l4 : List PVC)
    (l5 : List Service) (l6 : List Event) (l7 : List Ingress)
    (p2 : Except String (List Pod)) (p3 : Except String (List Deployment))
    (p4 : Except String (List PVC)) (p5 : Except String (List Service))
    (p6 : Except String (List Event)) (p7 : Except String (List Ingress))
    (lookup lookupF : String → String → SecretOutcome)
    (hfail : ∀ a b, secretResolves (lookupF a b) = false) :
    CheckHealth now ⟨.error e, p2, p3, p4, p5, p6, p7, lookup⟩ =
      .error ("failed to check nodes: " ++ e) ∧
    CheckHealth now ⟨.ok l1, .error e, p3, p4, p5, p6, p7, lookup⟩ =
      .error ("failed to check pods: " ++ e) ∧
    CheckHealth now ⟨.ok l1, .ok l2, .error e, p4, p5, p6, p7, lookup⟩ =
      .error ("failed to check deployments: " ++ e) ∧
    CheckHealth now ⟨.ok l1, .ok l2, .ok l3, .error e, p5, p6, p7, lookup⟩ =
      .error ("failed to check pvcs: " ++ e) ∧
    CheckHealth now ⟨.ok l1, .ok l2, .ok l3, .ok l4, .error e, p6, p7, lookup⟩ =
      .error ("failed to check services: " ++ e) ∧
    CheckHealth now ⟨.ok l1, .ok l2, .ok l3, .ok l4, .ok l5, .error e, p7, lookup⟩ =
      .error ("failed to check events: " ++ e) ∧
    CheckHealth now ⟨.ok l1, .ok l2, .ok l3, .ok l4, .ok l5, .ok l6, .error e, lookup⟩ =
      .error ("failed to check certificates: " ++ e) ∧
    (checkCertificates now lookup l7).Valid +
      (checkCertificates now lookup l7).Expiring.length +
      (checkCertificates now lookup l7).Expired.length
      = (checkCertificates now lookup l7).Total ∧
    checkCertificates 0
      (fun _ name => if name == "good" then .cert (40 * 86400) else .parseFail)
      [{ ns := "default", tls := [{ hosts := ["a"], secretName := "bad" },
                                  { hosts := ["b"], secretName := "good" }] }] =
      { Total := 1, Valid := 1, Expiring := [], Expired := [] } ∧
    CheckHealth now ⟨.ok l1, .ok l2, .ok l3, .ok l4, .ok l5, .ok l6, .ok l7, lookupF⟩ =
      .ok { Nodes := checkNodes l1, Pods := checkPods l2, Deployments := checkDeployments l3,
            PVCs := checkPVCs l4, Services := checkServices l5, Events := checkEvents now l6,
            Certs := emptyCertResult } := by
  refine ⟨rfl, rfl, rfl, rfl, rfl, rfl, rfl,
    checkCertificates_classified now lookup l7, by decide, ?_⟩
  simp only [CheckHealth]
  rw [checkCertificates_all_fail now lookupF l7 hfail]

/-- Witness for `checkHealth_fatal_lists_nonfatal_secrets`: a failing node
list call aborts the whole health check with the wrapped error. -/
theorem checkHealth_fatal_witness :
    CheckHealth 0 ⟨.error "boom", .ok [], .ok [], .ok [], .ok [], .ok [], .ok [],
        fun _ _ => .getError "nope"⟩ = .error ("failed to check nodes: " ++ "boom") :=
  (checkHealth_fatal_lists_nonfatal_secrets 0 "boom" [] [] [] [] [] [] []
    (.ok []) (.ok []) (.ok []) (.ok []) (.ok []) (.ok [])
    (fun _ _ => .getError "nope") (fun _ _ => .getError "nope")
    (fun _ _ => rfl)).1

/-- **C9** For a resolved certificate expiring `d` whole days from now,
`checkCertificates` classifies it by the integer days-until-expiry:
`d < 0` → expired, `0 ≤ d ≤ 29` → expiring-soon, `30 ≤ d` → valid; in
particular a certificate expiring in exactly 10 days is in the expiring
bucket (not valid) and one expiring in exactly 30 days is valid (boundary
at 30). -/
theorem certificate_classification_by_days
    (now d : Int) (ns host secret : String) (hsecret : secret ≠ "") :
    checkCertificates now (fun _ _ => .cert (now + d * 86400))
        [{ ns := ns, tls := [{ hosts := [host], secretName := secret }] }] =
      { Total := 1
        Valid := if 30 ≤ d then 1 else 0
        Expiring := if 0 ≤ d ∧ d < 30
          then [{ Host := host, Namespace := ns, Secret := secret, ExpiresIn := d,
                  Expiry := now + d * 86400 }] else []
        Expired := if d < 0
          then [{ Host := host, Namespace := ns, Secret := secret, ExpiresIn := d,
                  Expiry := now + d * 86400 }] else [] } ∧
    (checkCertificates 0 (fun _ _ => .cert (10 * 86400))
        [{ ns := "default", tls := [{ hosts := ["h"], secretName := "s" }] }]).Expiring.length = 1 ∧
    (checkCertificates 0 (fun _ _ => .cert (10 * 86400))
        [{ ns := "default", tls := [{ hosts := ["h"], secretName := "s" }] }]).Valid = 0 ∧
    (checkCertificates 0 (fun _ _ => .cert (30 * 86400))
        [{ ns := "default", tls := [{ hosts := ["h"], secretName := "s" }] }]).Valid = 1 ∧
    (checkCertificates 0 (fun _ _ => .cert (30 * 86400))
        [{ ns := "default", tls := [{ hosts := ["h"], secretName := "s" }] }]).Expiring = [] := by
  refine ⟨?_, by decide, by decide, by decide, by decide⟩
  have hsb : (secret == "") = false := beq_eq_false_iff_ne.mpr hsecret
  have hday : goDaysUntil now (now + d * 86400) = d := by
    unfold goDaysUntil
    have harith : now + d * 86400 - now = d * 86400 := by ring
    rw [harith, Int.mul_tdiv_cancel d (by norm_num)]
  simp only [checkCertificates, certEntries, certStep, List.flatMap_cons, List.map_cons,
    List.flatMap_nil, List.map_nil, List.append_nil, List.foldl_cons, List.foldl_nil,
    hsb, hday, emptyCertResult]
  split_ifs <;> first | rfl | (exfalso; omega) | simp_all

/-- Witness for `certificate_classification_by_days` at `d = -1`: a
certificate one day past expiry is in the expired bucket. -/
theorem certificate_classification_witness :
    checkCertificates 0 (fun _ _ => .cert (-86400))
        [{ ns := "default", tls := [{ hosts := ["h"], secretName := "s" }] }] =
      { Total := 1, Valid := 0, Expiring := [],
        Expired := [{ Host := "h", Namespace := "default", Secret := "s",
                      ExpiresIn := -1, Expiry := -86400 }] } := by
  have h := (certificate_classification_by_days 0 (-1) "default" "h" "s" (by decide)).1
  simpa using h

theorem length_filter_add_length_filter_not {α : Type} (p : α → Bool) (l : List α) :
    (l.filter p).length + (l.filter fun a => !p a).length = l.length := by
  induction l with
  | nil => rfl
  | cons a l ih => cases h : p a <;> simp [List.filter_cons, h] <;> omega

/-- **C10** `checkNodes` counts every node in exactly one of the Ready
counter or the NotReady list (based solely on a Ready condition with
status True), so `Ready + |NotReady| = Total` for every node list,
independently of how many pressure-condition entries the same nodes add to
`Conditions` — whereas for pods the analogous identity fails: one Running
pod with a crash-looping container and an image-pull-failing container
appears in both problem lists, making the healthy count plus the problem
list sizes exceed `Total`. -/
theorem node_ready_partition (nodes : List K8sNode) :
    ((checkNodes nodes).Ready + (checkNodes nodes).NotReady.length = (checkNodes nodes).Total) ∧
    ((checkPods [doubleWaitingPod]).Running +
      (checkPods [doubleWaitingPod]).CrashLoopBackOff.length +
      (checkPods [doubleWaitingPod]).ImagePullBackOff.length +
      (checkPods [doubleWaitingPod]).Pending.length +
      (checkPods [doubleWaitingPod]).Failed.length ≠
      (checkPods [doubleWaitingPod]).Total) := by
  constructor
  · unfold checkNodes
    dsimp only
    rw [List.length_map]
    exact length_filter_add_length_filter_not nodeIsReady nodes
  · decide
